import Mathlib

/-!
Verification of the kubeapps-apis ingress server
(`src/cmd/kubeapps-apis/server/server.go`).

The Go source is shallowly embedded: pure helpers become Lean functions,
the bootstrap control flow becomes a function over an environment of
step outcomes, and configuration literals become Lean structure values.
Machine integers that cannot overflow in context are modelled as `Nat`.
-/

namespace KubeappsApis

/-! ## String helpers (embedding of Go `strings.Contains`) -/

/-- Whether `needle` occurs at the very start of `s` (character lists). -/
def leadsWith : List Char → List Char → Bool
  | _, [] => true
  | [], _ :: _ => false
  | a :: as, b :: bs => a == b && leadsWith as bs

/-- Whether `needle` occurs contiguously anywhere inside `s`
(character lists); the empty needle always occurs. -/
def containsSeq : List Char → List Char → Bool
  | [], needle => needle.isEmpty
  | s@(_ :: rest), needle => leadsWith s needle || containsSeq rest needle

/-- Embedding of Go `strings.Contains(s, substr)`: true iff `substr`
occurs as a contiguous substring of `s`. -/
def stringsContains (s substr : String) : Bool :=
  containsSeq s.data substr.data

/-! ## Log-level selection (`getLogLevelOfEndpoint`, server.go lines 42-58) -/

/-- The module-level suppression list of server.go line 45:
endpoint function names whose interceptor logging is suppressed. -/
def suppressLoggingOfEndpoints : List String := ["GetConfiguredPlugins"]

/-- The `for` loop of `getLogLevelOfEndpoint` (server.go lines 50-55):
walk the suppression list; on the first entry contained in `endpoint`
set the level to 4 and break; otherwise keep the default level 3. -/
def getLogLevelLoop (endpoint : String) : List String → Nat
  | [] => 3
  | s :: rest =>
      if stringsContains endpoint s then 4 else getLogLevelLoop endpoint rest

/-- Embedding of `getLogLevelOfEndpoint` (server.go lines 42-58):
klog verbosity 3 by default, 4 for endpoints on the suppression list
(matched with `strings.Contains`). -/
def getLogLevelOfEndpoint (endpoint : String) : Nat :=
  getLogLevelLoop endpoint suppressLoggingOfEndpoints

/-! ## The logging interceptor (`LogRequest`, server.go lines 61-76) -/

/-- The part of `grpc.UnaryServerInfo` the interceptor reads. -/
structure UnaryServerInfo where
  fullMethod : String
deriving Repr, DecidableEq

/-- One line emitted by the interceptor: status code, elapsed
wall-clock duration, fully qualified method name, at a klog level. -/
structure LogEntry where
  code : String
  durationMicros : Nat
  fullMethod : String
  level : Nat
deriving Repr, DecidableEq

/-- Embedding of `status.Code(err)`: `OK` for a nil error, otherwise
the error's gRPC code. -/
def statusCode : Option String → String
  | none => "OK"
  | some c => c

/-- Embedding of `LogRequest` (server.go lines 61-76): run the handler,
then log `[status code] [duration] [full path]` at the level chosen by
`getLogLevelOfEndpoint`, and return the handler's result unchanged.
`elapsedMicros` stands for the measured `time.Since(start)`. -/
def LogRequest {α β : Type} (req : α) (info : UnaryServerInfo)
    (handler : α → β × Option String) (elapsedMicros : Nat) :
    (β × Option String) × LogEntry :=
  let res := handler req
  (res,
   { code := statusCode res.2
     durationMicros := elapsedMicros
     fullMethod := info.fullMethod
     level := getLogLevelOfEndpoint info.fullMethod })

/-! ## Interceptor wiring of the two server generations

The legacy gRPC server is constructed with
`grpc.NewServer(grpc.ChainUnaryInterceptor(LogRequest))` (server.go
line 291), so its unary calls pass through `LogRequest`. The
new-generation connect plugins handler is constructed with
`pluginsConnect.NewPluginsServiceHandler(pluginsServer)` (server.go
line 391) with no interceptor option, so unary calls it serves pass
through no interceptor. -/

/-- A unary interceptor installed on a server generation. -/
inductive UnaryInterceptor where
  | logRequest
deriving Repr, DecidableEq

/-- The unary interceptor chain of the legacy gRPC server
(server.go line 291): exactly the chain `LogRequest`. -/
def improbableGRPCServerInterceptors : List UnaryInterceptor :=
  [UnaryInterceptor.logRequest]

/-- The unary interceptor chain of the new-generation connect plugins
handler (server.go line 391): `NewPluginsServiceHandler` is called
with no interceptor option, so the chain is empty. -/
def connectPluginsHandlerInterceptors : List UnaryInterceptor :=
  []

/-! ## Capability Router

`GetPluginsSatisfyingInterface` lives in the plugins-server package
(`pluginsv1alpha1`), outside `src/`; only its callers
(`registerPackagesServiceServer`, server.go line 146, and
`registerRepositoriesServiceServer`, line 163) are in `src/`.
It is therefore modelled from the spec. -/

/-- A core service interface used as a lookup key (spec §3:
"identifies one core service interface ... no mutable state"). -/
abbrev ServiceContract := String

/-- Modelled from the spec: a `PluginHandle` is "an opaque reference to
a loaded plugin plus the set of service contracts it declares support
for (its capability set)" (spec §3). -/
structure PluginHandle where
  id : Nat
  capabilities : List ServiceContract
deriving Repr, DecidableEq

/-- Modelled from the spec: the Capability Router
(`PluginsServer.GetPluginsSatisfyingInterface`, not under `src/`),
which "given a `ServiceContract` and a collection of `PluginHandle`s,
returns the ordered sub-collection of handles whose declared capability
set includes that contract" (spec §4.1), written as the source's loop
that appends each satisfying plugin in input order. -/
def GetPluginsSatisfyingInterface :
    List PluginHandle → ServiceContract → List PluginHandle
  | [], _ => []
  | p :: rest, target =>
      if p.capabilities.contains target then
        p :: GetPluginsSatisfyingInterface rest target
      else
        GetPluginsSatisfyingInterface rest target

/-- The core packages service: holds the plugins resolved for the
packages contract. -/
structure PackagesServer where
  pluginsWithServers : List PluginHandle
deriving Repr, DecidableEq

/-- The core repositories service: holds the plugins resolved for the
repositories contract. -/
structure RepositoriesServer where
  pluginsWithServers : List PluginHandle
deriving Repr, DecidableEq

/-- Modelled from the spec: `NewPackagesServer` (package
`packagesv1alpha1`, not under `src/`). Per spec §4.1 an empty plugin
collection "is valid and signals no plugin serves this contract, which
the caller (service constructor) must treat as a valid empty-service
registration, not a fatal condition", so construction never fails. -/
def NewPackagesServer (plugins : List PluginHandle) :
    Except String PackagesServer :=
  Except.ok ⟨plugins⟩

/-- Modelled from the spec: `NewRepositoriesServer` (package
`packagesv1alpha1`, not under `src/`); like `NewPackagesServer`,
construction never fails and an empty plugin list is accepted. -/
def NewRepositoriesServer (plugins : List PluginHandle) :
    Except String RepositoriesServer :=
  Except.ok ⟨plugins⟩

/-! ## Legacy Protocol Demultiplexer (`startImprobableHandler`,
server.go lines 334-337)

cmux hands each accepted connection to the registered matchers in
registration order; the first matcher that accepts it owns the
connection. `cmux.HTTP2MatchHeaderFieldSendSettings(name, value)`
accepts exactly the connections whose negotiated HTTP/2 transport
headers carry the field `name` with value equal to `value`;
`cmux.Any()` accepts every connection. A connection is modelled by
the content-type field its negotiated HTTP/2 transport headers
declare (`none` when the connection declares no such field, which
includes every connection the HTTP/2 header matchers cannot read). -/

/-- A raw inbound connection, as seen by the demultiplexer's sniffers. -/
structure Conn where
  /-- The content-type declared by the connection's negotiated HTTP/2
  transport headers, or `none` when no such field can be sniffed. -/
  contentType : Option String
deriving Repr, DecidableEq

/-- The three demultiplexed sub-listeners of server.go lines 335-337. -/
inductive SubListener where
  | grpcListener
  | grpcWebListener
  | httpListener
deriving Repr, DecidableEq

/-- Embedding of
`cmux.HTTP2MatchHeaderFieldSendSettings("content-type", value)`:
accept exactly the connections declaring content type `value`. -/
def http2MatchContentType (value : String) (c : Conn) : Bool :=
  c.contentType == some value

/-- Embedding of `cmux.Any()`: accepts every connection. -/
def cmuxAny (_ : Conn) : Bool :=
  true

/-- The demultiplexer built at server.go lines 334-337: matchers are
tried in registration order — `"application/grpc"` first,
`"application/grpc-web"` second, `cmux.Any()` last — and the first
match owns the connection. -/
def classifyConn (c : Conn) : SubListener :=
  if http2MatchContentType "application/grpc" c then
    SubListener.grpcListener
  else if http2MatchContentType "application/grpc-web" c then
    SubListener.grpcWebListener
  else
    SubListener.httpListener

/-! ## Transport Bridge (`createProxyToImprobableHandler`,
server.go lines 256-283) -/

/-- The part of Go's `http.Request` the bridge reads and rewrites:
URL scheme and host (rewritten), path, method, headers, body
(passed through), and the negotiated protocol major version
(`r.ProtoMajor`, read for transport selection). -/
structure HttpRequest where
  urlScheme : String
  urlHost : String
  urlPath : String
  method : String
  headers : List (String × String)
  body : List Nat
  protoMajor : Nat
deriving Repr, DecidableEq

/-- The two reverse-proxy transports of server.go lines 257-274. -/
inductive ProxyTransport where
  /-- The `http2.Transport` with `AllowHTTP` and a cleartext `DialTLS`
  (server.go lines 262-267). -/
  | h2cTransport
  /-- The default HTTP/1.1 transport of the second `ReverseProxy`
  (server.go lines 269-274). -/
  | http1Transport
deriving Repr, DecidableEq

/-- Embedding of the h2c proxy's `Director` (server.go lines 258-261):
set the URL scheme to `http` and the URL host to the loopback address
at the improbable handler's port, leaving everything else as it was. -/
def h2cProxyDirector (port : Nat) (r : HttpRequest) : HttpRequest :=
  { r with
    urlScheme := "http"
    urlHost := "127.0.0.1:" ++ toString port }

/-- Embedding of the HTTP/1.1 proxy's `Director` (server.go lines
270-273), textually identical to the h2c proxy's. -/
def http1ProxyDirector (port : Nat) (r : HttpRequest) : HttpRequest :=
  { r with
    urlScheme := "http"
    urlHost := "127.0.0.1:" ++ toString port }

/-- Embedding of the handler returned by
`createProxyToImprobableHandler` (server.go lines 276-282): requests
negotiated at HTTP/2 go through the h2c proxy, everything else through
the HTTP/1.1 proxy. Returns the transport chosen and the request the
chosen proxy's director forwards upstream. -/
def createProxyToImprobableHandler (port : Nat) (r : HttpRequest) :
    ProxyTransport × HttpRequest :=
  if r.protoMajor == 2 then
    (ProxyTransport.h2cTransport, h2cProxyDirector port r)
  else
    (ProxyTransport.http1Transport, http1ProxyDirector port r)

/-! ## Gateway marshaller configuration (`gatewayMux`,
server.go lines 179-189)

`protojson` (third-party) is embedded at the granularity of the two
flags the source sets: a message is a list of named fields, a field
value `0` standing for the zero/unset value of its type. With
`EmitUnpopulated: false`, `protojson.Marshal` omits zero-valued
fields; with `DiscardUnknown: true`, `protojson.Unmarshal` drops JSON
fields that match no known message field instead of failing. -/

/-- Embedding of `protojson.MarshalOptions`, restricted to the field the source
sets (server.go line 183). -/
structure MarshalOptions where
  emitUnpopulated : Bool
deriving Repr, DecidableEq

/-- Embedding of `protojson.UnmarshalOptions`, restricted to the field the source
sets (server.go line 186). -/
structure UnmarshalOptions where
  discardUnknown : Bool
deriving Repr, DecidableEq

/-- The `runtime.JSONPb` marshaller configuration. -/
structure JSONPb where
  marshalOptions : MarshalOptions
  unmarshalOptions : UnmarshalOptions
deriving Repr, DecidableEq

/-- The marshaller `gatewayMux` installs for every MIME type
(server.go lines 181-188): unpopulated fields not emitted, unknown
fields discarded. -/
def gatewayMuxMarshaler : JSONPb :=
  { marshalOptions := { emitUnpopulated := false }
    unmarshalOptions := { discardUnknown := true } }

/-- Embedding of `protojson.Marshal` under the given options, on a
message given as named fields (`0` = zero/unset value): emit a field
iff it is populated or `EmitUnpopulated` is set. -/
def protojsonMarshal (opts : MarshalOptions) (fields : List (String × Nat)) :
    List (String × Nat) :=
  if opts.emitUnpopulated then fields
  else fields.filter (fun f => f.2 ≠ 0)

/-- Embedding of `protojson.Unmarshal` under the given options, on a
JSON body given as named fields, against a message type with the given
known field names: with `DiscardUnknown` set, unrecognized fields are
dropped; without it, any unrecognized field is an error. -/
def protojsonUnmarshal (opts : UnmarshalOptions) (known : List String)
    (fields : List (String × Nat)) : Except String (List (String × Nat)) :=
  if opts.discardUnknown then
    Except.ok (fields.filter (fun f => known.contains f.1))
  else if fields.all (fun f => known.contains f.1) then
    Except.ok fields
  else
    Except.error "unknown field"

/-! ## HTTP server timeout configuration -/

/-- The timeout fields of Go's `http.Server`; `0` is Go's zero value,
meaning no timeout is enforced. -/
structure GoHttpServerTimeouts where
  readHeaderTimeoutSeconds : Nat
  readTimeoutSeconds : Nat
  writeTimeoutSeconds : Nat
  idleTimeoutSeconds : Nat
deriving Repr, DecidableEq

/-- The `http.Server` built by `startImprobableHandler` for the HTTP
sub-listener (server.go lines 345-346): `ReadHeaderTimeout` is set to
`60 * time.Second` ("mitigate slowloris attacks, set to nginx's
default"); no other timeout field is set. -/
def improbableHttpServerTimeouts : GoHttpServerTimeouts :=
  { readHeaderTimeoutSeconds := 60
    readTimeoutSeconds := 0
    writeTimeoutSeconds := 0
    idleTimeoutSeconds := 0 }

/-- The Front Door's server (server.go line 133): `Serve` calls
`http.ListenAndServe(listenAddr, handler)`, which constructs
`&http.Server{Addr: addr, Handler: handler}` with every timeout field
left at its zero value, so no timeout at all is configured there. -/
def frontDoorServerTimeouts : GoHttpServerTimeouts :=
  { readHeaderTimeoutSeconds := 0
    readTimeoutSeconds := 0
    writeTimeoutSeconds := 0
    idleTimeoutSeconds := 0 }

/-! ## Server Bootstrap (`Serve`, server.go lines 80-138, and its
callees)

The bootstrap's external effects (binding listeners, registering
gateway handlers, building cluster clients) are embedded as an
environment recording whether each effectful step would succeed; the
control flow over those outcomes is translated from the source
line by line. -/

/-- The service contract the packages service is resolved against
(server.go line 146: `packagesGRPCv1alpha1.PackagesServiceServer`). -/
def packagesContract : ServiceContract := "PackagesServiceServer"

/-- The service contract the repositories service is resolved against
(server.go line 163: `packagesGRPCv1alpha1.RepositoriesServiceServer`). -/
def repositoriesContract : ServiceContract := "RepositoriesServiceServer"

/-- The outcome of each effectful bootstrap step, plus the loaded
plugin set the plugins server holds. -/
structure BootstrapEnv where
  /-- Outcome of `gwmux.HandlePath(GET, "/openapi.json", ...)` (server.go line 194). -/
  handlePathOpenapiOk : Bool
  /-- Outcome of `gwmux.HandlePath(GET, "/docs", ...)` (server.go line 201). -/
  handlePathDocsOk : Bool
  /-- Outcome of `rest.InClusterConfig()` (server.go line 208). -/
  inClusterConfigOk : Bool
  /-- Outcome of `kubernetes.NewForConfig(svcRestConfig)` (server.go line 212). -/
  clientsetOk : Bool
  /-- Outcome of `gwmux.HandlePath(GET, ".../logo", ...)` (server.go line 219). -/
  handlePathLogoOk : Bool
  /-- Outcome of `net.Listen("tcp", ":0")` (server.go line 304). -/
  listenCMuxOk : Bool
  /-- Outcome of `pluginsv1alpha1.NewPluginsServer(...)` (server.go line 104). -/
  pluginsServerOk : Bool
  /-- Outcome of `RegisterPluginsServiceHandlerFromEndpoint` (server.go line 392). -/
  registerPluginsGatewayOk : Bool
  /-- Outcome of `RegisterPackagesServiceHandlerFromEndpoint` (server.go line 154). -/
  registerPackagesGatewayOk : Bool
  /-- Outcome of `RegisterRepositoriesServiceHandlerFromEndpoint` (server.go
  line 171). -/
  registerRepositoriesGatewayOk : Bool
  /-- Outcome of `strconv.Atoi` on the cmux listener's port (server.go line 382). -/
  portParseOk : Bool
  /-- Outcome of `http.ListenAndServe(listenAddr, ...)` binding the Front Door
  (server.go line 133). -/
  frontDoorBindOk : Bool
  /-- The plugin set loaded by the (external) plugin loader, held by
  the plugins server. -/
  plugins : List PluginHandle
deriving Repr, DecidableEq

/-- Embedding of `gatewayMux` (server.go lines 179-245): registers the
two doc paths, builds the in-cluster configuration and clientset for
the icon passthrough, registers the icon path; the first failing step
aborts construction with its error. -/
def gatewayMux (env : BootstrapEnv) : Except String JSONPb :=
  if !env.handlePathOpenapiOk then
    Except.error "failed to serve"
  else if !env.handlePathDocsOk then
    Except.error "failed to serve"
  else if !env.inClusterConfigOk then
    Except.error "failed to retrieve in cluster configuration"
  else if !env.clientsetOk then
    Except.error "failed to retrieve clientset"
  else if !env.handlePathLogoOk then
    Except.error "failed to serve"
  else
    Except.ok gatewayMuxMarshaler

/-- Embedding of `createImprobableGRPCServer` (server.go lines
288-319): build the gateway mux, then bind the cmux listener on an
ephemeral port; either failure is returned unchanged. -/
def createImprobableGRPCServer (env : BootstrapEnv) : Except String JSONPb :=
  match gatewayMux env with
  | Except.error e => Except.error e
  | Except.ok gw =>
      if !env.listenCMuxOk then
        Except.error "listen tcp :0: bind failure"
      else
        Except.ok gw

/-- Embedding of `registerPackagesServiceServer` (server.go lines
140-159): resolve the packages plugins through the Capability Router,
construct the packages server, register it on the legacy gRPC server
and on the gateway. -/
def registerPackagesServiceServer (env : BootstrapEnv) : Except String Unit :=
  match NewPackagesServer
      (GetPluginsSatisfyingInterface env.plugins packagesContract) with
  | Except.error e =>
      Except.error ("failed to create core.packages.v1alpha1 server: " ++ e)
  | Except.ok _ =>
      if !env.registerPackagesGatewayOk then
        Except.error "failed to register core.packages handler for gateway"
      else
        Except.ok ()

/-- Embedding of `registerRepositoriesServiceServer` (server.go lines
161-176): like `registerPackagesServiceServer`, for the repositories
contract. -/
def registerRepositoriesServiceServer (env : BootstrapEnv) :
    Except String Unit :=
  match NewRepositoriesServer
      (GetPluginsSatisfyingInterface env.plugins repositoriesContract) with
  | Except.error e =>
      Except.error ("failed to create core.packages.v1alpha1 server: " ++ e)
  | Except.ok _ =>
      if !env.registerRepositoriesGatewayOk then
        Except.error "failed to register core.packages handler for gateway"
      else
        Except.ok ()

/-- Embedding of `startImprobableHandler` (server.go lines 322-387):
register the packages and repositories services, then start the four
serve loops, then parse and return the listener's ephemeral port. The
returned flag records whether the serve loops were started. -/
def startImprobableHandler (env : BootstrapEnv) :
    Except String Unit × Bool :=
  match registerPackagesServiceServer env with
  | Except.error e => (Except.error e, false)
  | Except.ok _ =>
      match registerRepositoriesServiceServer env with
      | Except.error e => (Except.error e, false)
      | Except.ok _ =>
          if !env.portParseOk then
            (Except.error "invalid port syntax", true)
          else
            (Except.ok (), true)

/-- How a call to `Serve` ends. -/
inductive ServeResult where
  /-- Case where `Serve` returned the given error to its caller. -/
  | returnedError (msg : String)
  /-- Case where `klogv2.Fatalf` terminated the whole process (server.go
  line 134). -/
  | processExit
  /-- The Front Door is bound and `http.ListenAndServe` blocks for the
  process lifetime. -/
  | serving
deriving Repr, DecidableEq

/-- The externally observable state `Serve` leaves behind. -/
structure ServerState where
  /-- Whether the legacy generation's serve loops (server.go lines
  357-379) were started. -/
  serveLoopsStarted : Bool
  /-- Whether the Front Door was bound to the configured external
  port. -/
  frontDoorBound : Bool
deriving Repr, DecidableEq

/-- Embedding of `Serve` (server.go lines 80-138): create the legacy
gRPC server and gateway, construct and register the plugins server,
start the improbable handler, and finally bind the Front Door; every
failing step before the final bind returns a wrapped error, and a
failing final bind terminates the process via `klogv2.Fatalf`. -/
def Serve (env : BootstrapEnv) : ServeResult × ServerState :=
  match createImprobableGRPCServer env with
  | Except.error e =>
      (ServeResult.returnedError ("failed to create gRPC server: " ++ e),
       { serveLoopsStarted := false, frontDoorBound := false })
  | Except.ok _ =>
      if !env.pluginsServerOk then
        (ServeResult.returnedError "failed to initialize plugins server",
         { serveLoopsStarted := false, frontDoorBound := false })
      else if !env.registerPluginsGatewayOk then
        (ServeResult.returnedError
           "failed to register core.plugins handler for gateway",
         { serveLoopsStarted := false, frontDoorBound := false })
      else
        match startImprobableHandler env with
        | (Except.error e, loops) =>
            (ServeResult.returnedError e,
             { serveLoopsStarted := loops, frontDoorBound := false })
        | (Except.ok _, loops) =>
            if !env.frontDoorBindOk then
              (ServeResult.processExit,
               { serveLoopsStarted := loops, frontDoorBound := false })
            else
              (ServeResult.serving,
               { serveLoopsStarted := loops, frontDoorBound := true })

/-! ## Theorems -/

/-- The Capability Router's loop computes exactly a filter by
capability membership. -/
theorem getPluginsSatisfyingInterface_eq_filter
    (P : List PluginHandle) (C : ServiceContract) :
    GetPluginsSatisfyingInterface P C
      = P.filter (fun p => decide (C ∈ p.capabilities)) := by
  induction P with
  | nil => rfl
  | cons p rest ih =>
      by_cases h : C ∈ p.capabilities
      · simp [GetPluginsSatisfyingInterface, List.filter, h, ih]
      · simp [GetPluginsSatisfyingInterface, List.filter, h, ih]

/-- C1: for every plugin set `P` and service contract `C`, the
Capability Router returns exactly the plugins of `P` whose capability
set includes `C`, preserving `P`'s relative order (the result is a
sublist of `P`); when no plugin matches it returns the empty list
rather than an error, and the packages and repositories service
constructors accept the empty list as a valid empty-service
registration. -/
theorem capability_router_correct
    (P : List PluginHandle) (C : ServiceContract) :
    GetPluginsSatisfyingInterface P C
      = P.filter (fun p => decide (C ∈ p.capabilities)) ∧
    (GetPluginsSatisfyingInterface P C).Sublist P ∧
    (∀ p ∈ GetPluginsSatisfyingInterface P C, C ∈ p.capabilities) ∧
    ((∀ p ∈ P, C ∉ p.capabilities) →
      GetPluginsSatisfyingInterface P C = []) ∧
    (NewPackagesServer (GetPluginsSatisfyingInterface P C)).isOk = true ∧
    (NewRepositoriesServer (GetPluginsSatisfyingInterface P C)).isOk = true := by
  refine ⟨getPluginsSatisfyingInterface_eq_filter P C, ?_, ?_, ?_, rfl, rfl⟩
  · rw [getPluginsSatisfyingInterface_eq_filter]
    exact List.filter_sublist P
  · intro p hp
    rw [getPluginsSatisfyingInterface_eq_filter] at hp
    have := List.of_mem_filter hp
    simpa using this
  · intro hnone
    rw [getPluginsSatisfyingInterface_eq_filter]
    refine List.filter_eq_nil_iff.mpr ?_
    intro p hp
    simpa using hnone p hp

/-- C1 witness: the Capability Router evaluated on a concrete plugin
set and contract. -/
theorem capability_router_correct_witness :
    GetPluginsSatisfyingInterface
        [⟨0, ["PackagesServiceServer"]⟩, ⟨1, []⟩,
         ⟨2, ["PackagesServiceServer", "RepositoriesServiceServer"]⟩]
        "PackagesServiceServer"
      = [⟨0, ["PackagesServiceServer"]⟩,
         ⟨2, ["PackagesServiceServer", "RepositoriesServiceServer"]⟩] ∧
    GetPluginsSatisfyingInterface
        [⟨0, ["PackagesServiceServer"]⟩] "RepositoriesServiceServer" = [] := by
  constructor
  · have h := capability_router_correct
      [⟨0, ["PackagesServiceServer"]⟩, ⟨1, []⟩,
       ⟨2, ["PackagesServiceServer", "RepositoriesServiceServer"]⟩]
      "PackagesServiceServer"
    rw [h.1]
    decide
  · have h := capability_router_correct
      [⟨0, ["PackagesServiceServer"]⟩] "RepositoriesServiceServer"
    exact h.2.2.2.1 (by decide)

/-- C2: the demultiplexer classifies every inbound connection in
priority order — an exact declared content type `application/grpc`
goes to the binary-RPC sub-listener; otherwise an exact
`application/grpc-web` goes to the browser-RPC sub-listener; every
other connection (including any declaring no sniffable content type)
goes to the default HTTP sub-listener — and each connection is
assigned exactly one sub-listener. -/
theorem demux_classifies_by_content_type (c : Conn) :
    (c.contentType = some "application/grpc" →
      classifyConn c = SubListener.grpcListener) ∧
    (c.contentType ≠ some "application/grpc" →
      c.contentType = some "application/grpc-web" →
      classifyConn c = SubListener.grpcWebListener) ∧
    (c.contentType ≠ some "application/grpc" →
      c.contentType ≠ some "application/grpc-web" →
      classifyConn c = SubListener.httpListener) ∧
    (∃! l : SubListener, classifyConn c = l) := by
  refine ⟨?_, ?_, ?_, classifyConn c, rfl, fun l hl => hl.symm⟩
  · intro h
    simp [classifyConn, http2MatchContentType, h]
  · intro h1 h2
    simp [classifyConn, http2MatchContentType, h1, h2]
  · intro h1 h2
    simp [classifyConn, http2MatchContentType, h1, h2]

/-- C2 witness: concrete connections of each kind are routed to the
expected sub-listener. -/
theorem demux_classifies_by_content_type_witness :
    classifyConn ⟨some "application/grpc"⟩ = SubListener.grpcListener ∧
    classifyConn ⟨some "application/grpc-web"⟩ = SubListener.grpcWebListener ∧
    classifyConn ⟨some "text/html"⟩ = SubListener.httpListener ∧
    classifyConn ⟨none⟩ = SubListener.httpListener := by
  refine ⟨?_, ?_, ?_, ?_⟩
  · exact (demux_classifies_by_content_type ⟨some "application/grpc"⟩).1 rfl
  · exact (demux_classifies_by_content_type ⟨some "application/grpc-web"⟩).2.1
      (by decide) rfl
  · exact (demux_classifies_by_content_type ⟨some "text/html"⟩).2.2.1
      (by decide) (by decide)
  · exact (demux_classifies_by_content_type ⟨none⟩).2.2.1
      (by decide) (by decide)

/-- C3: the Transport Bridge selects the upstream transport solely by
the inbound request's negotiated HTTP protocol major version: major
version 2 is served by the h2c reverse proxy, every other major
version by the plain HTTP/1.1 reverse proxy. -/
theorem bridge_selects_transport_by_proto_major
    (port : Nat) (r : HttpRequest) :
    (r.protoMajor = 2 →
      (createProxyToImprobableHandler port r).1 = ProxyTransport.h2cTransport) ∧
    (r.protoMajor ≠ 2 →
      (createProxyToImprobableHandler port r).1 = ProxyTransport.http1Transport) := by
  constructor
  · intro h
    simp [createProxyToImprobableHandler, h]
  · intro h
    simp [createProxyToImprobableHandler, h]

/-- C3 witness: concrete HTTP/2 and HTTP/1.1 requests pick the h2c and
HTTP/1.1 transports respectively. -/
theorem bridge_selects_transport_by_proto_major_witness :
    (createProxyToImprobableHandler 50051
        ⟨"http", "example:80", "/p", "POST", [], [], 2⟩).1
      = ProxyTransport.h2cTransport ∧
    (createProxyToImprobableHandler 50051
        ⟨"http", "example:80", "/p", "GET", [], [], 1⟩).1
      = ProxyTransport.http1Transport := by
  constructor
  · exact (bridge_selects_transport_by_proto_major 50051
      ⟨"http", "example:80", "/p", "POST", [], [], 2⟩).1 rfl
  · exact (bridge_selects_transport_by_proto_major 50051
      ⟨"http", "example:80", "/p", "GET", [], [], 1⟩).2 (by decide)

/-- C4: whichever proxy the bridge picks, its request rewrite changes
only the URL scheme (to `http`) and the URL host (to the loopback
address at the legacy generation's ephemeral port); path, method,
headers, and body are left unchanged. -/
theorem bridge_rewrites_only_scheme_and_host
    (port : Nat) (r : HttpRequest) :
    (createProxyToImprobableHandler port r).2.urlScheme = "http" ∧
    (createProxyToImprobableHandler port r).2.urlHost
      = "127.0.0.1:" ++ toString port ∧
    (createProxyToImprobableHandler port r).2.urlPath = r.urlPath ∧
    (createProxyToImprobableHandler port r).2.method = r.method ∧
    (createProxyToImprobableHandler port r).2.headers = r.headers ∧
    (createProxyToImprobableHandler port r).2.body = r.body ∧
    (createProxyToImprobableHandler port r).2.protoMajor = r.protoMajor := by
  by_cases h : r.protoMajor = 2 <;>
    simp [createProxyToImprobableHandler, h, h2cProxyDirector, http1ProxyDirector]

/-- C5: the gateway's marshaller is configured so that marshalling
omits every field left at its zero/unset value, and unmarshalling
never fails on unrecognized fields — it discards them. -/
theorem gateway_marshaller_omits_and_discards
    (fields : List (String × Nat)) (known : List String)
    (body : List (String × Nat)) :
    gatewayMuxMarshaler.marshalOptions.emitUnpopulated = false ∧
    gatewayMuxMarshaler.unmarshalOptions.discardUnknown = true ∧
    protojsonMarshal gatewayMuxMarshaler.marshalOptions fields
      = fields.filter (fun f => f.2 ≠ 0) ∧
    (∀ f ∈ protojsonMarshal gatewayMuxMarshaler.marshalOptions fields,
      f.2 ≠ 0) ∧
    protojsonUnmarshal gatewayMuxMarshaler.unmarshalOptions known body
      = Except.ok (body.filter (fun f => known.contains f.1)) := by
  refine ⟨rfl, rfl, ?_, ?_, ?_⟩
  · simp [protojsonMarshal, gatewayMuxMarshaler]
  · intro f hf
    simp only [protojsonMarshal, gatewayMuxMarshaler] at hf
    simp only [if_neg Bool.false_ne_true] at hf
    have := List.of_mem_filter hf
    simpa using this
  · simp [protojsonUnmarshal, gatewayMuxMarshaler]

/-- C5 witness: a concrete message marshals without its zero-valued
field, and a concrete body with an unknown field unmarshals without
error, dropping that field. -/
theorem gateway_marshaller_omits_and_discards_witness :
    protojsonMarshal gatewayMuxMarshaler.marshalOptions
        [("name", 7), ("count", 0)] = [("name", 7)] ∧
    protojsonUnmarshal gatewayMuxMarshaler.unmarshalOptions
        ["name"] [("name", 7), ("unknownField", 3)]
      = Except.ok [("name", 7)] := by
  have h := gateway_marshaller_omits_and_discards
    [("name", 7), ("count", 0)] ["name"] [("name", 7), ("unknownField", 3)]
  refine ⟨?_, ?_⟩
  · rw [h.2.2.1]; decide
  · rw [h.2.2.2.2]; rfl

/-- C6 counterexample: it is not the case that every unary RPC call
passes through the logging interceptor: the new-generation connect
plugins handler — the one that serves the plugins service, including
`GetConfiguredPlugins`, on the Front Door — is built with an empty
interceptor chain, so the calls it serves bypass `LogRequest`, which
is installed only on the legacy gRPC server. -/
theorem not_every_unary_call_passes_log_interceptor :
    UnaryInterceptor.logRequest ∉ connectPluginsHandlerInterceptors ∧
    connectPluginsHandlerInterceptors = [] ∧
    UnaryInterceptor.logRequest ∈ improbableGRPCServerInterceptors := by
  decide

/-- C6 (amended): every unary call served through the legacy gRPC
server generation passes through that server's single logging
interceptor, which records the result status code, the elapsed
duration, and the fully qualified method name, and returns the
handler's result unchanged; the suppression list designates exactly
the one method name `GetConfiguredPlugins`, logged at klog level 4,
while every method not containing it is logged at the default level 3.
The new-generation connect plugins handler installs no interceptor, so
the unary calls it serves are not logged by `LogRequest`. -/
theorem logging_interceptor_records_and_suppresses
    {α β : Type} (req : α) (info : UnaryServerInfo)
    (handler : α → β × Option String) (elapsedMicros : Nat) :
    (LogRequest req info handler elapsedMicros).2.code
      = statusCode (handler req).2 ∧
    (LogRequest req info handler elapsedMicros).2.durationMicros
      = elapsedMicros ∧
    (LogRequest req info handler elapsedMicros).2.fullMethod
      = info.fullMethod ∧
    (LogRequest req info handler elapsedMicros).1 = handler req ∧
    suppressLoggingOfEndpoints = ["GetConfiguredPlugins"] ∧
    ((LogRequest req info handler elapsedMicros).2.level
      = (if stringsContains info.fullMethod "GetConfiguredPlugins"
         then 4 else 3)) ∧
    improbableGRPCServerInterceptors = [UnaryInterceptor.logRequest] ∧
    connectPluginsHandlerInterceptors = [] := by
  refine ⟨rfl, rfl, rfl, rfl, rfl, ?_, rfl, rfl⟩
  show getLogLevelOfEndpoint info.fullMethod = _
  simp only [getLogLevelOfEndpoint, suppressLoggingOfEndpoints, getLogLevelLoop]

/-- C6 witness: the interceptor evaluated on a concrete suppressed
call and a concrete ordinary call. -/
theorem logging_interceptor_records_and_suppresses_witness :
    (LogRequest 0 ⟨"/kubeappsapis.core.plugins.v1alpha1.PluginsService/GetConfiguredPlugins"⟩
        (fun _ : Nat => (1, (none : Option String))) 97).2
      = { code := "OK", durationMicros := 97,
          fullMethod := "/kubeappsapis.core.plugins.v1alpha1.PluginsService/GetConfiguredPlugins",
          level := 4 } ∧
    (LogRequest 0 ⟨"/kubeappsapis.core.packages.v1alpha1.PackagesService/GetAvailablePackageSummaries"⟩
        (fun _ : Nat => (2, some "NotFound")) 120).2
      = { code := "NotFound", durationMicros := 120,
          fullMethod := "/kubeappsapis.core.packages.v1alpha1.PackagesService/GetAvailablePackageSummaries",
          level := 3 } := by
  constructor
  · have h := logging_interceptor_records_and_suppresses 0
      (⟨"/kubeappsapis.core.plugins.v1alpha1.PluginsService/GetConfiguredPlugins"⟩ : UnaryServerInfo)
      (fun _ : Nat => (1, (none : Option String))) 97
    rw [LogEntry.mk.injEq]
    refine ⟨h.1, h.2.1, h.2.2.1, ?_⟩
    rw [h.2.2.2.2.2.1]
    decide
  · have h := logging_interceptor_records_and_suppresses 0
      (⟨"/kubeappsapis.core.packages.v1alpha1.PackagesService/GetAvailablePackageSummaries"⟩ : UnaryServerInfo)
      (fun _ : Nat => (2, some "NotFound")) 120
    rw [LogEntry.mk.injEq]
    refine ⟨h.1, h.2.1, h.2.2.1, ?_⟩
    rw [h.2.2.2.2.2.1]
    decide

/-- C7 counterexample: the claim attributes the 60-second header-read
timeout to the Front Door's HTTP server, but the Front Door is served
through `http.ListenAndServe`, whose server sets no timeout at all. -/
theorem front_door_has_no_header_read_timeout :
    ¬ frontDoorServerTimeouts.readHeaderTimeoutSeconds = 60 := by
  decide

/-- C7 (amended): the fixed 60-second header-read timeout is enforced
by the legacy generation's internal HTTP server (the one serving the
demultiplexer's HTTP sub-listener), not by the Front Door's server,
which sets no explicit timeout; no other explicit request timeout is
imposed by the core. -/
theorem header_read_timeout_is_on_improbable_server :
    improbableHttpServerTimeouts.readHeaderTimeoutSeconds = 60 ∧
    improbableHttpServerTimeouts.readTimeoutSeconds = 0 ∧
    improbableHttpServerTimeouts.writeTimeoutSeconds = 0 ∧
    improbableHttpServerTimeouts.idleTimeoutSeconds = 0 ∧
    frontDoorServerTimeouts.readHeaderTimeoutSeconds = 0 ∧
    frontDoorServerTimeouts.readTimeoutSeconds = 0 ∧
    frontDoorServerTimeouts.writeTimeoutSeconds = 0 ∧
    frontDoorServerTimeouts.idleTimeoutSeconds = 0 := by
  decide

/-- C9: the log-suppression check matches by substring containment,
not exact method identity: every endpoint containing
`GetConfiguredPlugins` anywhere gets klog level 4, and every endpoint
not containing it gets level 3. -/
theorem log_level_matches_by_substring (endpoint : String) :
    (stringsContains endpoint "GetConfiguredPlugins" = true →
      getLogLevelOfEndpoint endpoint = 4) ∧
    (stringsContains endpoint "GetConfiguredPlugins" = false →
      getLogLevelOfEndpoint endpoint = 3) := by
  constructor
  · intro h
    simp [getLogLevelOfEndpoint, suppressLoggingOfEndpoints,
      getLogLevelLoop, h]
  · intro h
    simp [getLogLevelOfEndpoint, suppressLoggingOfEndpoints,
      getLogLevelLoop, h]

/-- C9 witness: a full method path that merely contains the designated
name (and is not equal to it) gets level 4; an endpoint without it
gets level 3. -/
theorem log_level_matches_by_substring_witness :
    getLogLevelOfEndpoint "PluginsService/GetConfiguredPlugins" = 4 ∧
    "PluginsService/GetConfiguredPlugins" ≠ "GetConfiguredPlugins" ∧
    getLogLevelOfEndpoint "PackagesService/GetInstalledPackageSummaries" = 3 := by
  refine ⟨?_, by decide, ?_⟩
  · exact (log_level_matches_by_substring
      "PluginsService/GetConfiguredPlugins").1 (by decide)
  · exact (log_level_matches_by_substring
      "PackagesService/GetInstalledPackageSummaries").2 (by decide)

/-- A bootstrap step listed by the spec as fatal has failed: legacy
listener construction, gateway construction, plugins-service
construction or registration, or packages/repositories service
construction or registration. (The service constructors themselves
never fail, so their registration steps are the gateway ones.) -/
def constructionStepFails (env : BootstrapEnv) : Prop :=
  env.handlePathOpenapiOk = false ∨ env.handlePathDocsOk = false ∨
  env.inClusterConfigOk = false ∨ env.clientsetOk = false ∨
  env.handlePathLogoOk = false ∨ env.listenCMuxOk = false ∨
  env.pluginsServerOk = false ∨ env.registerPluginsGatewayOk = false ∨
  env.registerPackagesGatewayOk = false ∨
  env.registerRepositoriesGatewayOk = false

/-- If any step inside `gatewayMux` fails, the gateway construction
returns an error. -/
theorem gatewayMux_fails_of_step (env : BootstrapEnv)
    (h : env.handlePathOpenapiOk = false ∨ env.handlePathDocsOk = false ∨
         env.inClusterConfigOk = false ∨ env.clientsetOk = false ∨
         env.handlePathLogoOk = false) :
    ∃ e, gatewayMux env = Except.error e := by
  cases ho : env.handlePathOpenapiOk <;>
  cases hd : env.handlePathDocsOk <;>
  cases hic : env.inClusterConfigOk <;>
  cases hcs : env.clientsetOk <;>
  cases hlg : env.handlePathLogoOk <;>
  simp_all [gatewayMux]

/-- If the gateway construction or the cmux listener bind fails,
`createImprobableGRPCServer` returns an error. -/
theorem createImprobableGRPCServer_fails_of_step (env : BootstrapEnv)
    (h : env.handlePathOpenapiOk = false ∨ env.handlePathDocsOk = false ∨
         env.inClusterConfigOk = false ∨ env.clientsetOk = false ∨
         env.handlePathLogoOk = false ∨ env.listenCMuxOk = false) :
    ∃ e, createImprobableGRPCServer env = Except.error e := by
  by_cases hgw : env.handlePathOpenapiOk = false ∨ env.handlePathDocsOk = false ∨
      env.inClusterConfigOk = false ∨ env.clientsetOk = false ∨
      env.handlePathLogoOk = false
  · obtain ⟨e, he⟩ := gatewayMux_fails_of_step env hgw
    exact ⟨e, by simp [createImprobableGRPCServer, he]⟩
  · have hln : env.listenCMuxOk = false := by tauto
    cases hg : gatewayMux env with
    | error e => exact ⟨e, by simp [createImprobableGRPCServer, hg]⟩
    | ok gw =>
        exact ⟨"listen tcp :0: bind failure",
          by simp [createImprobableGRPCServer, hg, hln]⟩

/-- If a packages or repositories gateway registration fails,
`startImprobableHandler` returns an error without having started any
serve loop. -/
theorem startImprobableHandler_fails_of_step (env : BootstrapEnv)
    (h : env.registerPackagesGatewayOk = false ∨
         env.registerRepositoriesGatewayOk = false) :
    ∃ e, startImprobableHandler env = (Except.error e, false) := by
  cases hpk : env.registerPackagesGatewayOk
  · exact ⟨"failed to register core.packages handler for gateway",
      by simp [startImprobableHandler, registerPackagesServiceServer,
        NewPackagesServer, hpk]⟩
  · have hrr : env.registerRepositoriesGatewayOk = false := by
      rcases h with h | h
      · rw [hpk] at h; exact absurd h (by decide)
      · exact h
    exact ⟨"failed to register core.packages handler for gateway",
      by simp [startImprobableHandler, registerPackagesServiceServer,
        registerRepositoriesServiceServer, NewPackagesServer,
        NewRepositoriesServer, hpk, hrr]⟩

/-- A failing `createImprobableGRPCServer` makes `Serve` return the
wrapped error with nothing started. -/
theorem serve_error_of_createImprobable_error (env : BootstrapEnv)
    (e : String) (hc : createImprobableGRPCServer env = Except.error e) :
    Serve env = (ServeResult.returnedError ("failed to create gRPC server: " ++ e),
      { serveLoopsStarted := false, frontDoorBound := false }) := by
  simp [Serve, hc]

/-- C8: for every failure in a Bootstrap construction or registration
step, `Serve` returns an error to the caller, no legacy serve loop has
been started, and the Front Door is never bound — no partially wired
server is left running. -/
theorem bootstrap_failure_returns_error (env : BootstrapEnv)
    (h : constructionStepFails env) :
    (∃ msg, (Serve env).1 = ServeResult.returnedError msg) ∧
    (Serve env).2.serveLoopsStarted = false ∧
    (Serve env).2.frontDoorBound = false := by
  by_cases hc : env.handlePathOpenapiOk = false ∨ env.handlePathDocsOk = false ∨
      env.inClusterConfigOk = false ∨ env.clientsetOk = false ∨
      env.handlePathLogoOk = false ∨ env.listenCMuxOk = false
  · obtain ⟨e, he⟩ := createImprobableGRPCServer_fails_of_step env hc
    rw [serve_error_of_createImprobable_error env e he]
    exact ⟨⟨_, rfl⟩, rfl, rfl⟩
  · cases hcg : createImprobableGRPCServer env with
    | error e =>
        rw [serve_error_of_createImprobable_error env e hcg]
        exact ⟨⟨_, rfl⟩, rfl, rfl⟩
    | ok gw =>
        by_cases hps : env.pluginsServerOk = false
        · simp [Serve, hcg, hps]
        · have hps' : env.pluginsServerOk = true := by
            cases hv : env.pluginsServerOk
            · exact absurd hv hps
            · rfl
          by_cases hrp : env.registerPluginsGatewayOk = false
          · simp [Serve, hcg, hps', hrp]
          · have hrp' : env.registerPluginsGatewayOk = true := by
              cases hv : env.registerPluginsGatewayOk
              · exact absurd hv hrp
              · rfl
            have hlate : env.registerPackagesGatewayOk = false ∨
                env.registerRepositoriesGatewayOk = false := by
              rcases h with h|h|h|h|h|h|h|h|h|h <;> tauto
            obtain ⟨e, he⟩ := startImprobableHandler_fails_of_step env hlate
            simp [Serve, hcg, hps', hrp', he]

/-- C8 witness: `Serve` evaluated on concrete environments where the
gateway construction, respectively the repositories gateway
registration, fails. -/
theorem bootstrap_failure_returns_error_witness :
    ((∃ msg, (Serve ⟨true, true, false, true, true, true, true, true, true,
          true, true, true, []⟩).1 = ServeResult.returnedError msg) ∧
      (Serve ⟨true, true, false, true, true, true, true, true, true,
          true, true, true, []⟩).2.serveLoopsStarted = false ∧
      (Serve ⟨true, true, false, true, true, true, true, true, true,
          true, true, true, []⟩).2.frontDoorBound = false) ∧
    ((∃ msg, (Serve ⟨true, true, true, true, true, true, true, true, true,
          false, true, true, []⟩).1 = ServeResult.returnedError msg) ∧
      (Serve ⟨true, true, true, true, true, true, true, true, true,
          false, true, true, []⟩).2.serveLoopsStarted = false ∧
      (Serve ⟨true, true, true, true, true, true, true, true, true,
          false, true, true, []⟩).2.frontDoorBound = false) :=
  ⟨bootstrap_failure_returns_error _ (by unfold constructionStepFails; decide),
   bootstrap_failure_returns_error _ (by unfold constructionStepFails; decide)⟩

/-- C10: the gateway's construction itself requires the in-cluster
configuration and clientset: if either cannot be built, `gatewayMux`
returns an error and the whole startup fails (the Front Door is never
bound), rather than deferring the failure to icon requests. -/
theorem gateway_requires_cluster_client_at_construction
    (env : BootstrapEnv)
    (h : env.inClusterConfigOk = false ∨ env.clientsetOk = false) :
    (∃ e, gatewayMux env = Except.error e) ∧
    (∃ msg, (Serve env).1 = ServeResult.returnedError msg) ∧
    (Serve env).2.serveLoopsStarted = false ∧
    (Serve env).2.frontDoorBound = false := by
  obtain ⟨e, he⟩ := gatewayMux_fails_of_step env (by tauto)
  have hc : createImprobableGRPCServer env = Except.error e := by
    simp [createImprobableGRPCServer, he]
  rw [serve_error_of_createImprobable_error env e hc]
  exact ⟨⟨e, he⟩, ⟨_, rfl⟩, rfl, rfl⟩

/-- C10 witness: `Serve` evaluated on a concrete environment where the
clientset construction fails. -/
theorem gateway_requires_cluster_client_at_construction_witness :
    (∃ e, gatewayMux ⟨true, true, true, false, true, true, true, true, true,
        true, true, true, []⟩ = Except.error e) ∧
    (∃ msg, (Serve ⟨true, true, true, false, true, true, true, true, true,
        true, true, true, []⟩).1 = ServeResult.returnedError msg) ∧
    (Serve ⟨true, true, true, false, true, true, true, true, true,
        true, true, true, []⟩).2.serveLoopsStarted = false ∧
    (Serve ⟨true, true, true, false, true, true, true, true, true,
        true, true, true, []⟩).2.frontDoorBound = false :=
  gateway_requires_cluster_client_at_construction _ (Or.inr rfl)

end KubeappsApis
